import Mathlib

/-!
Verification of the generic cruise-control test script
(`cruise_control_test_generic.py`).

The script maintains an in-memory signal store (a Python dict from signal
name to value), exposes write/read helpers, high-level actions that each
write one signal, two verification predicates, and a two-step scenario
`run_test`.  We embed the store as an association list from `String` to
`Int` (all observed values are integers); a read of an absent name yields
`none`, mirroring `dict.get` returning `None`.  Python comparisons against
a possibly-`None` read are modelled explicitly: `None == k` is `False`,
while `None <= k` raises `TypeError`, so the `<=`-comparison is modelled
as `Option Bool` with `none` standing for the raised exception.
-/

/-- One signal-store entry list, mirroring the Python `dict` contents in
insertion order. -/
abbrev Signals := List (String × Int)

/-- Write to the association list, mirroring `self.signals[name] = value`:
replace the value of an existing key in place, or append a new entry. -/
def setSig (l : Signals) (name : String) (value : Int) : Signals :=
  match l with
  | [] => [(name, value)]
  | (k, w) :: rest =>
      if k = name then (k, value) :: rest else (k, w) :: setSig rest name value

/-- Lookup in the association list, mirroring `self.signals.get(name)`:
`none` when the key is absent (Python `None`). -/
def getSig (l : Signals) (name : String) : Option Int :=
  match l with
  | [] => none
  | (k, w) :: rest => if k = name then some w else getSig rest name

/-- The mock ECU bus: a very small in-memory stand-in holding the signal
mapping (`_MockBus` in the source). -/
structure MockBus where
  signals : Signals
deriving Repr, DecidableEq

/-- Embeds `_MockBus.write`: unconditionally set the signal to `value`. -/
def MockBus.write (bus : MockBus) (name : String) (value : Int) : MockBus :=
  ⟨setSig bus.signals name value⟩

/-- Embeds `_MockBus.read`: return the stored value, or `none` when the
name was never seeded or written. -/
def MockBus.read (bus : MockBus) (name : String) : Option Int :=
  getSig bus.signals name

/-- The freshly seeded bus built by `_MockBus.__post_init__`: five
pre-seeded signals, all 0. -/
def seededBus : MockBus :=
  ⟨[("CruiseControlActive", 0),
    ("CruiseControlEnabledSwitch", 0),
    ("CruiseControlStates", 0),
    ("CruiseControlSetSpeed", 0),
    ("VehicleSpeed", 0)]⟩

/-- Python equality `o == k` where `o` is a read result: `None == k` is
`False` (no exception), `v == k` is integer equality. -/
def pyEqInt (o : Option Int) (k : Int) : Bool :=
  match o with
  | none => false
  | some v => v == k

/-- Python comparison `o <= k` where `o` is a read result: `None <= k`
raises `TypeError` (modelled as `none`), `v <= k` is integer `≤`. -/
def pyLeInt (o : Option Int) (k : Int) : Option Bool :=
  match o with
  | none => none
  | some v => some (decide (v ≤ k))

/-- Embeds `verify_cruise_control_inactive`: all four cruise-control
signals compare equal to 0 (short-circuit conjunction of `==` checks,
each of which is a total boolean even on an absent read). -/
def verify_cruise_control_inactive (bus : MockBus) : Bool :=
  pyEqInt (bus.read "CruiseControlActive") 0
    && pyEqInt (bus.read "CruiseControlEnabledSwitch") 0
    && pyEqInt (bus.read "CruiseControlStates") 0
    && pyEqInt (bus.read "CruiseControlSetSpeed") 0

/-- Embeds `verify_cruise_control_active`: short-circuit conjunction of
three `==` checks followed by a `<=` check; the `<=` check raises
(`none`) when the read is absent, and by short-circuiting it is only
reached when the first three checks succeed. -/
def verify_cruise_control_active (bus : MockBus) (target_speed_max : Int := 35) :
    Option Bool :=
  if pyEqInt (bus.read "CruiseControlActive") 1 then
    if pyEqInt (bus.read "CruiseControlEnabledSwitch") 1 then
      if pyEqInt (bus.read "CruiseControlStates") 6 then
        pyLeInt (bus.read "CruiseControlSetSpeed") target_speed_max
      else some false
    else some false
  else some false

/-- The world the script manipulates: the singleton bus plus the ordered
trace of all `write_signal` calls performed so far (the observable write
log). Sleeps and log lines carry no state and are elided. -/
structure World where
  bus : MockBus
  trace : List (String × Int)
deriving Repr, DecidableEq

/-- Embeds `write_signal`: write through to the bus and record the write
in the trace. -/
def write_signal (w : World) (name : String) (value : Int) : World :=
  ⟨w.bus.write name value, w.trace ++ [(name, value)]⟩

/-- Embeds `power_on` (the trailing sleep is stateless). -/
def power_on (w : World) : World :=
  write_signal w "PowerSupply" 1

/-- Embeds `engine_start`. -/
def engine_start (w : World) : World :=
  write_signal w "EngineStart" 1

/-- Embeds `increase_gear`. -/
def increase_gear (w : World) : World :=
  write_signal w "GearIncreaseOne" 1

/-- Embeds `press_acc_pedal`. -/
def press_acc_pedal (w : World) (percent : Int) : World :=
  write_signal w "AccPedal" percent

/-- Embeds `press_cc_set_button`. -/
def press_cc_set_button (w : World) : World :=
  write_signal w "CruiseControlSetButton" 1

/-- The world at process start: freshly seeded bus, empty write trace. -/
def initWorld : World :=
  ⟨seededBus, []⟩

/-- Model of Python `random.randint lo hi` (standard-library semantics: a
uniform integer draw from the inclusive range), indexed by an abstract
randomness source `r`. -/
def randint (lo hi : Int) (r : Nat) : Int :=
  lo + ((r % (hi - lo + 1).toNat : Nat) : Int)

/-- Outcome of one `run_test` invocation: the final bus, the full write
trace, whether Step 1 passed, and — when Step 2 was attempted — the
result of the final `verify_cruise_control_active` evaluation (itself
`none` if that evaluation raised). -/
structure RunResult where
  bus : MockBus
  trace : List (String × Int)
  step1Passed : Bool
  step2Result : Option (Option Bool)
deriving Repr, DecidableEq

/-- Embeds `run_test`, with the pseudo-random draw supplied through the
randomness source `r`: power on, start the engine, check the baseline;
on failure return at once; on success write the drawn target speed to
VehicleSpeed, press the accelerator pedal at 40, increase gear, press
the SET button, and evaluate the activation predicate. -/
def run_test (w : World) (r : Nat) : RunResult :=
  let w1 := engine_start (power_on w)
  if verify_cruise_control_inactive w1.bus then
    let target_speed := randint 30 35 r
    let w2 := write_signal w1 "VehicleSpeed" target_speed
    let w3 := press_acc_pedal w2 40
    let w4 := increase_gear w3
    let w5 := press_cc_set_button w4
    ⟨w5.bus, w5.trace, true, some (verify_cruise_control_active w5.bus 35)⟩
  else
    ⟨w1.bus, w1.trace, false, none⟩

/-! ### Helper lemmas about the store -/

/-- Reading back the key just written returns the written value. -/
theorem getSig_setSig_self (l : Signals) (name : String) (value : Int) :
    getSig (setSig l name value) name = some value := by
  induction l with
  | nil => simp [setSig, getSig]
  | cons hd tl ih =>
      obtain ⟨k, w⟩ := hd
      by_cases hk : k = name
      · simp [setSig, getSig, hk]
      · simp [setSig, getSig, hk, ih]

/-- Writing one key leaves reads of any other key unchanged. -/
theorem getSig_setSig_ne (l : Signals) (name other : String) (value : Int)
    (h : other ≠ name) : getSig (setSig l name value) other = getSig l other := by
  induction l with
  | nil =>
      have hne : ¬name = other := fun hh => h hh.symm
      simp [setSig, getSig, hne]
  | cons hd tl ih =>
      obtain ⟨k, w⟩ := hd
      by_cases hk : k = name
      · subst hk
        have hko : ¬k = other := fun hh => h hh.symm
        simp [setSig, getSig, hko]
      · simp [setSig, getSig, hk, ih]

/-- A key that is absent from the list reads as `none`. -/
theorem getSig_eq_none_of_not_mem (l : Signals) (name : String)
    (h : name ∉ l.map Prod.fst) : getSig l name = none := by
  induction l with
  | nil => simp [getSig]
  | cons hd tl ih =>
      obtain ⟨k, w⟩ := hd
      simp only [List.map_cons, List.mem_cons] at h
      push_neg at h
      have hkn : ¬k = name := fun hh => h.1 hh.symm
      simp [getSig, hkn, ih h.2]

/-- `pyEqInt` succeeds exactly on a present read of the compared value. -/
theorem pyEqInt_eq_true_iff (o : Option Int) (k : Int) :
    pyEqInt o k = true ↔ o = some k := by
  cases o <;> simp [pyEqInt]

/-- `pyLeInt` returns `some true` exactly on a present read that is
at most the bound. -/
theorem pyLeInt_eq_some_true_iff (o : Option Int) (k : Int) :
    pyLeInt o k = some true ↔ ∃ v, o = some v ∧ v ≤ k := by
  cases o <;> simp [pyLeInt]

/-- Characterization of when the activation predicate yields `some true`. -/
theorem active_eq_some_true_iff (bus : MockBus) (m : Int) :
    verify_cruise_control_active bus m = some true ↔
      bus.read "CruiseControlActive" = some 1 ∧
      bus.read "CruiseControlEnabledSwitch" = some 1 ∧
      bus.read "CruiseControlStates" = some 6 ∧
      ∃ v, bus.read "CruiseControlSetSpeed" = some v ∧ v ≤ m := by
  unfold verify_cruise_control_active
  constructor
  · intro h
    split_ifs at h with h1 h2 h3
    · exact ⟨(pyEqInt_eq_true_iff _ _).1 h1, (pyEqInt_eq_true_iff _ _).1 h2,
        (pyEqInt_eq_true_iff _ _).1 h3, (pyLeInt_eq_some_true_iff _ _).1 h⟩
    · simp at h
    · simp at h
    · simp at h
  · rintro ⟨h1, h2, h3, v, hv, hvm⟩
    rw [if_pos ((pyEqInt_eq_true_iff _ _).2 h1), if_pos ((pyEqInt_eq_true_iff _ _).2 h2),
      if_pos ((pyEqInt_eq_true_iff _ _).2 h3), hv]
    simp [pyLeInt, hvm]

/-- Characterization of when the activation predicate raises. -/
theorem active_eq_none_iff (bus : MockBus) (m : Int) :
    verify_cruise_control_active bus m = none ↔
      bus.read "CruiseControlActive" = some 1 ∧
      bus.read "CruiseControlEnabledSwitch" = some 1 ∧
      bus.read "CruiseControlStates" = some 6 ∧
      bus.read "CruiseControlSetSpeed" = none := by
  unfold verify_cruise_control_active
  constructor
  · intro h
    split_ifs at h with h1 h2 h3
    · refine ⟨(pyEqInt_eq_true_iff _ _).1 h1, (pyEqInt_eq_true_iff _ _).1 h2,
        (pyEqInt_eq_true_iff _ _).1 h3, ?_⟩
      cases hr : bus.read "CruiseControlSetSpeed" with
      | none => rfl
      | some v => rw [hr] at h; simp [pyLeInt] at h
  · rintro ⟨h1, h2, h3, h4⟩
    rw [if_pos ((pyEqInt_eq_true_iff _ _).2 h1), if_pos ((pyEqInt_eq_true_iff _ _).2 h2),
      if_pos ((pyEqInt_eq_true_iff _ _).2 h3), h4]
    rfl

/-- Characterization of when the baseline predicate yields `true`. -/
theorem inactive_eq_true_iff (bus : MockBus) :
    verify_cruise_control_inactive bus = true ↔
      bus.read "CruiseControlActive" = some 0 ∧
      bus.read "CruiseControlEnabledSwitch" = some 0 ∧
      bus.read "CruiseControlStates" = some 0 ∧
      bus.read "CruiseControlSetSpeed" = some 0 := by
  simp [verify_cruise_control_inactive, Bool.and_eq_true, pyEqInt_eq_true_iff, and_assoc]

/-! ### Claim theorems -/

/-- C1: `verify_cruise_control_active(target_speed_max)` returns true iff
CruiseControlActive == 1, CruiseControlEnabledSwitch == 1,
CruiseControlStates == 6 and CruiseControlSetSpeed ≤ target_speed_max;
moreover, with the first three conditions holding, SetSpeed equal to the
bound yields true and SetSpeed equal to the bound plus one yields false. -/
theorem cruise_active_characterization (bus : MockBus) (m : Int) :
    (verify_cruise_control_active bus m = some true ↔
      bus.read "CruiseControlActive" = some 1 ∧
      bus.read "CruiseControlEnabledSwitch" = some 1 ∧
      bus.read "CruiseControlStates" = some 6 ∧
      ∃ v, bus.read "CruiseControlSetSpeed" = some v ∧ v ≤ m) ∧
    (bus.read "CruiseControlActive" = some 1 →
     bus.read "CruiseControlEnabledSwitch" = some 1 →
     bus.read "CruiseControlStates" = some 6 →
     (bus.read "CruiseControlSetSpeed" = some m →
        verify_cruise_control_active bus m = some true) ∧
     (bus.read "CruiseControlSetSpeed" = some (m + 1) →
        verify_cruise_control_active bus m = some false)) := by
  refine ⟨active_eq_some_true_iff bus m, fun h1 h2 h3 => ⟨fun hm => ?_, fun hm => ?_⟩⟩
  · exact (active_eq_some_true_iff bus m).2 ⟨h1, h2, h3, m, hm, le_refl m⟩
  · unfold verify_cruise_control_active
    rw [if_pos ((pyEqInt_eq_true_iff _ _).2 h1), if_pos ((pyEqInt_eq_true_iff _ _).2 h2),
      if_pos ((pyEqInt_eq_true_iff _ _).2 h3), hm]
    simp [pyLeInt]

/-- C1 witness: on a concrete store with the first three signals set and
SetSpeed at the bound, the predicate is true; one above the bound, false. -/
theorem cruise_active_characterization_witness :
    verify_cruise_control_active
      ⟨[("CruiseControlActive", 1), ("CruiseControlEnabledSwitch", 1),
        ("CruiseControlStates", 6), ("CruiseControlSetSpeed", 35)]⟩ 35 = some true ∧
    verify_cruise_control_active
      ⟨[("CruiseControlActive", 1), ("CruiseControlEnabledSwitch", 1),
        ("CruiseControlStates", 6), ("CruiseControlSetSpeed", 36)]⟩ 35 = some false :=
  ⟨((cruise_active_characterization
      ⟨[("CruiseControlActive", 1), ("CruiseControlEnabledSwitch", 1),
        ("CruiseControlStates", 6), ("CruiseControlSetSpeed", 35)]⟩ 35).2
      rfl rfl rfl).1 rfl,
   ((cruise_active_characterization
      ⟨[("CruiseControlActive", 1), ("CruiseControlEnabledSwitch", 1),
        ("CruiseControlStates", 6), ("CruiseControlSetSpeed", 36)]⟩ 35).2
      rfl rfl rfl).2 rfl⟩

/-- C2: `verify_cruise_control_inactive` is true iff all four checked
signals equal 0; and from any store where all four are 0, overwriting any
single one of them with a nonzero value makes the predicate false. -/
theorem cruise_inactive_characterization (bus : MockBus) :
    (verify_cruise_control_inactive bus = true ↔
      bus.read "CruiseControlActive" = some 0 ∧
      bus.read "CruiseControlEnabledSwitch" = some 0 ∧
      bus.read "CruiseControlStates" = some 0 ∧
      bus.read "CruiseControlSetSpeed" = some 0) ∧
    (bus.read "CruiseControlActive" = some 0 →
     bus.read "CruiseControlEnabledSwitch" = some 0 →
     bus.read "CruiseControlStates" = some 0 →
     bus.read "CruiseControlSetSpeed" = some 0 →
     ∀ v : Int, v ≠ 0 →
       verify_cruise_control_inactive (bus.write "CruiseControlActive" v) = false ∧
       verify_cruise_control_inactive (bus.write "CruiseControlEnabledSwitch" v) = false ∧
       verify_cruise_control_inactive (bus.write "CruiseControlStates" v) = false ∧
       verify_cruise_control_inactive (bus.write "CruiseControlSetSpeed" v) = false) := by
  refine ⟨inactive_eq_true_iff bus, fun _ _ _ _ v hv => ⟨?_, ?_, ?_, ?_⟩⟩ <;>
    simp [verify_cruise_control_inactive, MockBus.read, MockBus.write,
      getSig_setSig_self, pyEqInt, hv]

/-- C2 witness: from the seeded store (all four at 0), flipping
CruiseControlStates to 1 makes the baseline predicate false. -/
theorem cruise_inactive_characterization_witness :
    verify_cruise_control_inactive (seededBus.write "CruiseControlStates" 1) = false :=
  (((cruise_inactive_characterization seededBus).2 rfl rfl rfl rfl 1
    (by decide)).2.2).1

/-- C6: write-then-read identity — writing any value to any name and then
reading that name returns exactly the written value, for seeded and
unseeded names alike. -/
theorem write_then_read_identity (bus : MockBus) (name : String) (value : Int) :
    (bus.write name value).read name = some value :=
  getSig_setSig_self bus.signals name value

/-- C7: reading a name that was never seeded and never written returns the
absent sentinel `none`, which is distinct from a stored 0. -/
theorem read_unseeded_none (bus : MockBus) (name : String)
    (h : name ∉ bus.signals.map Prod.fst) :
    bus.read name = none ∧ bus.read name ≠ some 0 := by
  have hn : bus.read name = none := getSig_eq_none_of_not_mem bus.signals name h
  exact ⟨hn, by rw [hn]; simp⟩

/-- C7 witness: on the freshly seeded bus, the name EngineStart was never
seeded, so reading it yields the absent sentinel. -/
theorem read_unseeded_none_witness :
    seededBus.read "EngineStart" = none ∧ seededBus.read "EngineStart" ≠ some 0 :=
  read_unseeded_none seededBus "EngineStart" (by decide)

/-- C8: when any signal checked by the baseline predicate is absent, the
`== 0` comparison on the absent sentinel evaluates to false (it does not
raise) and the predicate returns false. -/
theorem inactive_false_on_absent (bus : MockBus) (name : String)
    (hmem : name ∈ ["CruiseControlActive", "CruiseControlEnabledSwitch",
      "CruiseControlStates", "CruiseControlSetSpeed"])
    (h : bus.read name = none) :
    pyEqInt (bus.read name) 0 = false ∧
    verify_cruise_control_inactive bus = false := by
  simp only [List.mem_cons, List.not_mem_nil, or_false] at hmem
  rcases hmem with h1 | h1 | h1 | h1 <;> subst h1 <;>
    simp [verify_cruise_control_inactive, h, pyEqInt]

/-- C8 witness: on the empty store, CruiseControlActive is absent and the
baseline predicate returns false. -/
theorem inactive_false_on_absent_witness :
    pyEqInt ((⟨[]⟩ : MockBus).read "CruiseControlActive") 0 = false ∧
    verify_cruise_control_inactive (⟨[]⟩ : MockBus) = false :=
  inactive_false_on_absent ⟨[]⟩ "CruiseControlActive" (by decide) rfl

/-- C9: starting from the freshly seeded store, power-on followed by
engine-start leaves the four checked signals at 0, and the baseline
predicate returns true. -/
theorem seeded_baseline_inactive_true :
    verify_cruise_control_inactive (engine_start (power_on initWorld)).bus = true ∧
    (engine_start (power_on initWorld)).bus.read "CruiseControlActive" = some 0 ∧
    (engine_start (power_on initWorld)).bus.read "CruiseControlEnabledSwitch" = some 0 ∧
    (engine_start (power_on initWorld)).bus.read "CruiseControlStates" = some 0 ∧
    (engine_start (power_on initWorld)).bus.read "CruiseControlSetSpeed" = some 0 :=
  ⟨rfl, rfl, rfl, rfl, rfl⟩

/-- Reads of names other than PowerSupply and EngineStart are unchanged by
the power-on plus engine-start prelude. -/
theorem prelude_read_ne (w : World) (n : String)
    (h1 : n ≠ "PowerSupply") (h2 : n ≠ "EngineStart") :
    (engine_start (power_on w)).bus.read n = w.bus.read n := by
  simp only [engine_start, power_on, write_signal, MockBus.write, MockBus.read]
  rw [getSig_setSig_ne _ _ _ _ h2, getSig_setSig_ne _ _ _ _ h1]

/-- When the baseline check passes, `run_test` is the Step 2 sequence: the
final world after the four Step 2 writes, with the activation predicate
evaluated on its bus. -/
theorem run_test_pass_eq (w : World) (r : Nat)
    (h : verify_cruise_control_inactive (engine_start (power_on w)).bus = true) :
    run_test w r =
      ⟨(press_cc_set_button (increase_gear (press_acc_pedal
          (write_signal (engine_start (power_on w)) "VehicleSpeed" (randint 30 35 r)) 40))).bus,
       (press_cc_set_button (increase_gear (press_acc_pedal
          (write_signal (engine_start (power_on w)) "VehicleSpeed" (randint 30 35 r)) 40))).trace,
       true,
       some (verify_cruise_control_active (press_cc_set_button (increase_gear (press_acc_pedal
          (write_signal (engine_start (power_on w)) "VehicleSpeed" (randint 30 35 r)) 40))).bus 35)⟩ := by
  simp [run_test, h]

/-- C3: if the Step 1 baseline predicate is false after power-on and
engine-start, then `run_test` stops: the write trace ends with the two
prelude writes, and VehicleSpeed, AccPedal, GearIncreaseOne and
CruiseControlSetButton keep the values they had before the scenario. -/
theorem run_test_halts_on_baseline_failure (w : World) (r : Nat)
    (h : verify_cruise_control_inactive (engine_start (power_on w)).bus = false) :
    (run_test w r).step1Passed = false ∧
    (run_test w r).bus.read "VehicleSpeed" = w.bus.read "VehicleSpeed" ∧
    (run_test w r).bus.read "AccPedal" = w.bus.read "AccPedal" ∧
    (run_test w r).bus.read "GearIncreaseOne" = w.bus.read "GearIncreaseOne" ∧
    (run_test w r).bus.read "CruiseControlSetButton" = w.bus.read "CruiseControlSetButton" ∧
    (run_test w r).trace = w.trace ++ [("PowerSupply", 1), ("EngineStart", 1)] := by
  have hrun : run_test w r =
      ⟨(engine_start (power_on w)).bus, (engine_start (power_on w)).trace, false, none⟩ := by
    simp [run_test, h]
  rw [hrun]
  refine ⟨rfl, ?_, ?_, ?_, ?_, ?_⟩
  · exact prelude_read_ne w "VehicleSpeed" (by decide) (by decide)
  · exact prelude_read_ne w "AccPedal" (by decide) (by decide)
  · exact prelude_read_ne w "GearIncreaseOne" (by decide) (by decide)
  · exact prelude_read_ne w "CruiseControlSetButton" (by decide) (by decide)
  · simp [engine_start, power_on, write_signal]

/-- C3 witness: pre-seeding CruiseControlActive to 1 makes Step 1 fail,
and the run leaves the four Step 2 signals untouched. -/
theorem run_test_halts_on_baseline_failure_witness :
    (run_test ⟨⟨[("CruiseControlActive", 1)]⟩, []⟩ 0).step1Passed = false ∧
    (run_test ⟨⟨[("CruiseControlActive", 1)]⟩, []⟩ 0).bus.read "VehicleSpeed" =
      (⟨[("CruiseControlActive", 1)]⟩ : MockBus).read "VehicleSpeed" ∧
    (run_test ⟨⟨[("CruiseControlActive", 1)]⟩, []⟩ 0).bus.read "AccPedal" =
      (⟨[("CruiseControlActive", 1)]⟩ : MockBus).read "AccPedal" ∧
    (run_test ⟨⟨[("CruiseControlActive", 1)]⟩, []⟩ 0).bus.read "GearIncreaseOne" =
      (⟨[("CruiseControlActive", 1)]⟩ : MockBus).read "GearIncreaseOne" ∧
    (run_test ⟨⟨[("CruiseControlActive", 1)]⟩, []⟩ 0).bus.read "CruiseControlSetButton" =
      (⟨[("CruiseControlActive", 1)]⟩ : MockBus).read "CruiseControlSetButton" ∧
    (run_test ⟨⟨[("CruiseControlActive", 1)]⟩, []⟩ 0).trace =
      ([] : List (String × Int)) ++ [("PowerSupply", 1), ("EngineStart", 1)] :=
  run_test_halts_on_baseline_failure ⟨⟨[("CruiseControlActive", 1)]⟩, []⟩ 0 rfl

/-- C4 counterexample: on a store where the first three activation
conditions hold but CruiseControlSetSpeed is absent, the activation
predicate does not return a boolean — the `<=` comparison against the
absent sentinel raises, modelled as `none`. -/
theorem active_raises_on_absent_setspeed :
    verify_cruise_control_active
      ⟨[("CruiseControlActive", 1), ("CruiseControlEnabledSwitch", 1),
        ("CruiseControlStates", 6)]⟩ 35 = none :=
  rfl

/-- C4 (amended): the baseline predicate always yields a boolean and
neither predicate mutates the store (both are pure functions of it); the
activation predicate yields a boolean except in exactly one situation —
the first three conditions hold and CruiseControlSetSpeed is absent —
where the `<=` comparison raises instead. -/
theorem predicate_totality_amended (bus : MockBus) (m : Int) :
    (verify_cruise_control_inactive bus = true ∨
      verify_cruise_control_inactive bus = false) ∧
    (verify_cruise_control_active bus m = none ↔
      bus.read "CruiseControlActive" = some 1 ∧
      bus.read "CruiseControlEnabledSwitch" = some 1 ∧
      bus.read "CruiseControlStates" = some 6 ∧
      bus.read "CruiseControlSetSpeed" = none) :=
  ⟨Bool.eq_false_or_eq_true _, active_eq_none_iff bus m⟩

/-- C4 witness: on the seeded store the activation predicate does not
raise, as SetSpeed is present (the characterization's right side fails). -/
theorem predicate_totality_amended_witness :
    verify_cruise_control_active seededBus 35 ≠ none := by
  intro hc
  have h := ((predicate_totality_amended seededBus 35).2.1 hc).2.2.2
  simp [seededBus, MockBus.read, getSig] at h

/-- C5: from the freshly seeded store, Step 1 always passes, the Step 2
writes touch none of the four signals read by the activation predicate
(they stay at the seeded 0), and the final check is `some false` — the
run always ends in the Step 2 FAILED branch, for every random draw. -/
theorem run_test_seeded_step2_fails (r : Nat) :
    (run_test initWorld r).step1Passed = true ∧
    (run_test initWorld r).bus.read "CruiseControlActive" = some 0 ∧
    (run_test initWorld r).bus.read "CruiseControlEnabledSwitch" = some 0 ∧
    (run_test initWorld r).bus.read "CruiseControlStates" = some 0 ∧
    (run_test initWorld r).bus.read "CruiseControlSetSpeed" = some 0 ∧
    (run_test initWorld r).step2Result = some (some false) :=
  ⟨rfl, rfl, rfl, rfl, rfl, rfl⟩

/-- C10: when Step 1 passes, the drawn target speed lies in [30, 35], the
trace extends the pre-scenario trace with the prelude writes followed by
VehicleSpeed, AccPedal at 40, GearIncreaseOne and CruiseControlSetButton
in exactly that order, and the Step 2 result is the activation predicate
evaluated on the store as left after all those writes. -/
theorem run_test_step2_order_and_range (w : World) (r : Nat)
    (h : verify_cruise_control_inactive (engine_start (power_on w)).bus = true) :
    30 ≤ randint 30 35 r ∧ randint 30 35 r ≤ 35 ∧
    (run_test w r).trace = w.trace ++
      [("PowerSupply", 1), ("EngineStart", 1), ("VehicleSpeed", randint 30 35 r),
       ("AccPedal", 40), ("GearIncreaseOne", 1), ("CruiseControlSetButton", 1)] ∧
    (run_test w r).step2Result =
      some (verify_cruise_control_active (run_test w r).bus 35) := by
  have h6 : ((35 : Int) - 30 + 1).toNat = 6 := rfl
  have hmod : r % 6 < 6 := Nat.mod_lt _ (by decide)
  refine ⟨?_, ?_, ?_, ?_⟩
  · simp only [randint, h6]
    omega
  · simp only [randint, h6]
    omega
  · rw [run_test_pass_eq w r h]
    simp [press_acc_pedal, increase_gear, press_cc_set_button,
      engine_start, power_on, write_signal]
  · rw [run_test_pass_eq w r h]

/-- C10 witness: from the fresh world with randomness source 0, Step 1
passes and the Step 2 order, range and final-evaluation facts hold. -/
theorem run_test_step2_order_and_range_witness :
    30 ≤ randint 30 35 0 ∧ randint 30 35 0 ≤ 35 ∧
    (run_test initWorld 0).trace = initWorld.trace ++
      [("PowerSupply", 1), ("EngineStart", 1), ("VehicleSpeed", randint 30 35 0),
       ("AccPedal", 40), ("GearIncreaseOne", 1), ("CruiseControlSetButton", 1)] ∧
    (run_test initWorld 0).step2Result =
      some (verify_cruise_control_active (run_test initWorld 0).bus 35) :=
  run_test_step2_order_and_range initWorld 0 rfl
